import Mathlib

/-!
Verification of the PySFT scheduling-and-caching orchestration layer.

The definitions below are a shallow embedding of the Python sources under
src/src/pysft.  Python dicts become insertion-ordered association lists
(insert overwrites the value in place, preserving the key's position),
timestamps become rationals measured in days, fallible operations return
Except, and the external collaborators (the JSON codec, the network fetch
functions) are passed in as function parameters.
-/

namespace PySFT

/-- Insertion-ordered dictionary insert over an association list: if the key
is already present its value is replaced in place, otherwise the pair is
appended at the end.  This mirrors Python dict assignment semantics. -/
def dictInsert {α : Type} (m : List (String × α)) (k : String) (v : α) :
    List (String × α) :=
  match m with
  | [] => [(k, v)]
  | (k2, v2) :: rest =>
      if k2 = k then (k, v) :: rest else (k2, v2) :: dictInsert rest k v

/-- Dictionary lookup over an association list (first matching key wins). -/
def dictLookup {α : Type} (m : List (String × α)) (k : String) : Option α :=
  match m with
  | [] => none
  | (k2, v) :: rest => if k2 = k then some v else dictLookup rest k

theorem dictLookup_dictInsert {α : Type} (m : List (String × α)) (k k2 : String)
    (v : α) :
    dictLookup (dictInsert m k v) k2 = if k = k2 then some v else dictLookup m k2 := by
  induction m with
  | nil => simp [dictInsert, dictLookup]
  | cons hd tl ih =>
      obtain ⟨k3, v3⟩ := hd
      by_cases h3 : k3 = k
      · subst h3
        by_cases h2 : k3 = k2
        · subst h2; simp [dictInsert, dictLookup]
        · simp [dictInsert, dictLookup, h2, Ne.symm h2]
      · by_cases h2 : k3 = k2
        · subst h2
          simp [dictInsert, dictLookup, h3]
          rw [if_neg (fun h => h3 h.symm)]
        · simp [dictInsert, dictLookup, h3, h2, ih]

/-! ## Field tiers and TTLs (src/src/pysft/core/constants.py) -/

/-- constants.DB_ENABLED: database caching is shipped disabled. -/
def DB_ENABLED : Bool := false

/-- constants.IMMUTABLE_FIELDS. -/
def IMMUTABLE_FIELDS : List String := ["ISIN"]

/-- constants.LONGTERM_TTL_FIELDS. -/
def LONGTERM_TTL_FIELDS : List String := ["name", "quoteType", "currency"]

/-- constants.MEDIUM_TTL_FIELDS. -/
def MEDIUM_TTL_FIELDS : List String := ["briefSummary"]

/-- constants.SHORT_TTL_FIELDS. -/
def SHORT_TTL_FIELDS : List String :=
  ["expense_rate", "dividendYield", "trailingPE", "forwardPE", "beta",
   "avgDailyVolume3mnth"]

/-- constants.LONGTERM_TTL_DAYS (time is modelled in days as a rational). -/
def LONGTERM_TTL_DAYS : ℚ := 365

/-- constants.MEDIUM_TTL_DAYS. -/
def MEDIUM_TTL_DAYS : ℚ := 90

/-- constants.SHORT_TTL_DAYS. -/
def SHORT_TTL_DAYS : ℚ := 7

/-! ## Freshness check (DatabaseManager._check_freshness, database.py:167-221) -/

/-- Embedding of `DatabaseManager._check_freshness`: walk the requested
attribute list; an immutable attribute is fresh iff its tier timestamp was
ever set; long/medium/short tier attributes are fresh iff the age does not
exceed their TTL; any attribute outside all tiers makes the whole check
return False immediately. -/
def check_freshness (requested_attributes : List String)
    (immutable_ts longterm_ts medium_ts short_ts : Option ℚ) (now : ℚ) : Bool :=
  match requested_attributes with
  | [] => true
  | attr :: rest =>
      if attr ∈ IMMUTABLE_FIELDS then
        match immutable_ts with
        | none => false
        | some _ => check_freshness rest immutable_ts longterm_ts medium_ts short_ts now
      else if attr ∈ LONGTERM_TTL_FIELDS then
        match longterm_ts with
        | none => false
        | some ts =>
            if now - ts > LONGTERM_TTL_DAYS then false
            else check_freshness rest immutable_ts longterm_ts medium_ts short_ts now
      else if attr ∈ MEDIUM_TTL_FIELDS then
        match medium_ts with
        | none => false
        | some ts =>
            if now - ts > MEDIUM_TTL_DAYS then false
            else check_freshness rest immutable_ts longterm_ts medium_ts short_ts now
      else if attr ∈ SHORT_TTL_FIELDS then
        match short_ts with
        | none => false
        | some ts =>
            if now - ts > SHORT_TTL_DAYS then false
            else check_freshness rest immutable_ts longterm_ts medium_ts short_ts now
      else false

/-- Per-attribute freshness condition, written from the spec's words: an
immutable attribute is fresh iff its tier timestamp was ever set; a
long/medium/short tier attribute is fresh iff now minus the tier timestamp is
at most 365 / 90 / 7 days; an attribute outside all tiers is never fresh. -/
def attr_fresh_spec (attr : String)
    (immutable_ts longterm_ts medium_ts short_ts : Option ℚ) (now : ℚ) : Bool :=
  if attr ∈ IMMUTABLE_FIELDS then immutable_ts.isSome
  else if attr ∈ LONGTERM_TTL_FIELDS then
    match longterm_ts with
    | none => false
    | some ts => decide (now - ts ≤ LONGTERM_TTL_DAYS)
  else if attr ∈ MEDIUM_TTL_FIELDS then
    match medium_ts with
    | none => false
    | some ts => decide (now - ts ≤ MEDIUM_TTL_DAYS)
  else if attr ∈ SHORT_TTL_FIELDS then
    match short_ts with
    | none => false
    | some ts => decide (now - ts ≤ SHORT_TTL_DAYS)
  else false

/-! ## The indicators table and the cache read/write paths (database.py) -/

/-- One row of the `indicators` table: the serialized snapshot plus the four
tier timestamps and the last-fetched timestamp. -/
structure IndicatorRow where
  data_json : String
  immutable_fetched_at : Option ℚ
  longterm_fetched_at : Option ℚ
  medium_fetched_at : Option ℚ
  short_fetched_at : Option ℚ
  last_fetched_at : ℚ
deriving DecidableEq, Repr

/-- State of a `DatabaseManager`: whether caching is enabled, whether a
connection is open, and the contents of the `indicators` table. -/
structure DBState where
  enabled : Bool
  connected : Bool
  indicators : List (String × IndicatorRow)
deriving DecidableEq, Repr

/-- Embedding of `DatabaseManager.get_cached_data` (database.py:116-165).
The JSON decoder is passed in as `parse`; `json.loads` raising on a malformed
snapshot is modelled by the `Except.error` branch, which the source does not
catch.  Returns the pair (cached_data, is_fresh) on the non-raising paths. -/
def get_cached_data {α : Type} (parse : String → Option α) (st : DBState)
    (indicator : String) (requested_attributes : List String) (now : ℚ) :
    Except String (Option α × Bool) :=
  if st.enabled = false ∨ st.connected = false then .ok (none, false)
  else
    match dictLookup st.indicators indicator with
    | none => .ok (none, false)
    | some row =>
        match parse row.data_json with
        | none => .error "JSONDecodeError"
        | some cached_data =>
            .ok (some cached_data,
              check_freshness requested_attributes row.immutable_fetched_at
                row.longterm_fetched_at row.medium_fetched_at
                row.short_fetched_at now)

/-- Embedding of `DatabaseManager.cache_indicator_data` (database.py:246-325).
The serializer is passed in as `serialize`.  The snapshot and the last-fetched
timestamp are always written; a tier timestamp is set to `now` exactly when
some fetched field belongs to that tier, and is otherwise kept (update path)
or left NULL (insert path). -/
def cache_indicator_data {α : Type} (serialize : α → String) (st : DBState)
    (indicator : String) (data : α) (fetched_fields : List String) (now : ℚ) :
    DBState :=
  if st.enabled = false ∨ st.connected = false then st
  else
    let data_json := serialize data
    let update_immutable := fetched_fields.any (fun f => f ∈ IMMUTABLE_FIELDS)
    let update_longterm := fetched_fields.any (fun f => f ∈ LONGTERM_TTL_FIELDS)
    let update_medium := fetched_fields.any (fun f => f ∈ MEDIUM_TTL_FIELDS)
    let update_short := fetched_fields.any (fun f => f ∈ SHORT_TTL_FIELDS)
    match dictLookup st.indicators indicator with
    | some row =>
        let row2 : IndicatorRow :=
          { data_json := data_json
            immutable_fetched_at :=
              if update_immutable then some now else row.immutable_fetched_at
            longterm_fetched_at :=
              if update_longterm then some now else row.longterm_fetched_at
            medium_fetched_at :=
              if update_medium then some now else row.medium_fetched_at
            short_fetched_at :=
              if update_short then some now else row.short_fetched_at
            last_fetched_at := now }
        { st with indicators := dictInsert st.indicators indicator row2 }
    | none =>
        let row2 : IndicatorRow :=
          { data_json := data_json
            immutable_fetched_at := if update_immutable then some now else none
            longterm_fetched_at := if update_longterm then some now else none
            medium_fetched_at := if update_medium then some now else none
            short_fetched_at := if update_short then some now else none
            last_fetched_at := now }
        { st with indicators := dictInsert st.indicators indicator row2 }

/-- The row that the cache write path is expected to leave behind, written
from the spec's words: snapshot and last-fetched timestamp updated, a tier
timestamp advanced to `now` exactly when its tier contains a fetched field
and otherwise carried over from the previous row (NULL when there was none). -/
def cache_write_spec_row {α : Type} (serialize : α → String)
    (prev : Option IndicatorRow) (data : α) (fetched_fields : List String)
    (now : ℚ) : IndicatorRow :=
  { data_json := serialize data
    immutable_fetched_at :=
      if fetched_fields.any (fun f => f ∈ IMMUTABLE_FIELDS) then some now
      else prev.bind (fun r => r.immutable_fetched_at)
    longterm_fetched_at :=
      if fetched_fields.any (fun f => f ∈ LONGTERM_TTL_FIELDS) then some now
      else prev.bind (fun r => r.longterm_fetched_at)
    medium_fetched_at :=
      if fetched_fields.any (fun f => f ∈ MEDIUM_TTL_FIELDS) then some now
      else prev.bind (fun r => r.medium_fetched_at)
    short_fetched_at :=
      if fetched_fields.any (fun f => f ∈ SHORT_TTL_FIELDS) then some now
      else prev.bind (fun r => r.short_fetched_at)
    last_fetched_at := now }

theorem check_freshness_eq_all (attrs : List String)
    (its lts mts sts : Option ℚ) (now : ℚ) :
    check_freshness attrs its lts mts sts now
      = attrs.all (fun a => attr_fresh_spec a its lts mts sts now) := by
  induction attrs with
  | nil => rfl
  | cons a rest ih =>
      rw [List.all_cons, ← ih]
      simp only [check_freshness, attr_fresh_spec]
      by_cases h1 : a ∈ IMMUTABLE_FIELDS
      · cases its with
        | none => simp [h1]
        | some t => simp [h1]
      · by_cases h2 : a ∈ LONGTERM_TTL_FIELDS
        · cases lts with
          | none => simp [h1, h2]
          | some t =>
              by_cases hage : now - t > LONGTERM_TTL_DAYS
              · simp [h1, h2, hage, not_le.mpr (lt_sub_iff_add_lt.mp hage)]
              · simp [h1, h2, hage, sub_le_iff_le_add.mp (not_lt.mp hage)]
        · by_cases h3 : a ∈ MEDIUM_TTL_FIELDS
          · cases mts with
            | none => simp [h1, h2, h3]
            | some t =>
                by_cases hage : now - t > MEDIUM_TTL_DAYS
                · simp [h1, h2, h3, hage, not_le.mpr (lt_sub_iff_add_lt.mp hage)]
                · simp [h1, h2, h3, hage, sub_le_iff_le_add.mp (not_lt.mp hage)]
          · by_cases h4 : a ∈ SHORT_TTL_FIELDS
            · cases sts with
              | none => simp [h1, h2, h3, h4]
              | some t =>
                  by_cases hage : now - t > SHORT_TTL_DAYS
                  · simp [h1, h2, h3, h4, hage,
                      not_le.mpr (lt_sub_iff_add_lt.mp hage)]
                  · simp [h1, h2, h3, h4, hage,
                      sub_le_iff_le_add.mp (not_lt.mp hage)]
            · simp [h1, h2, h3, h4]

/-- C3: a cache lookup's freshness verdict is true iff every requested
attribute is fresh — immutable-tier attributes iff their tier timestamp was
ever set, long/medium/short tier attributes iff their age is at most
365 / 90 / 7 days, and any attribute outside all tiers makes the lookup
stale.  In particular a long-term attribute cached 200 days ago is fresh and
at 400 days elapsed is stale. -/
theorem freshness_is_conjunction_of_tier_ttls :
    (∀ (attrs : List String) (its lts mts sts : Option ℚ) (now : ℚ),
        check_freshness attrs its lts mts sts now
          = attrs.all (fun a => attr_fresh_spec a its lts mts sts now))
    ∧ check_freshness ["name"] none (some 0) none none 200 = true
    ∧ check_freshness ["name"] none (some 0) none none 400 = false := by
  refine ⟨check_freshness_eq_all, ?_, ?_⟩ <;>
    simp [check_freshness, IMMUTABLE_FIELDS, LONGTERM_TTL_FIELDS,
      LONGTERM_TTL_DAYS] <;> norm_num

/-- C10: with database caching disabled (the shipped default DB_ENABLED =
false) or no open connection, every cache read behaves as an unconditional
miss and every cache write leaves the state untouched. -/
theorem disabled_db_read_misses_write_noop {α : Type}
    (parse : String → Option α) (serialize : α → String) (st : DBState)
    (indicator : String) (attrs fetched_fields : List String) (now : ℚ)
    (data : α) (h : st.enabled = false ∨ st.connected = false) :
    DB_ENABLED = false
    ∧ get_cached_data parse st indicator attrs now = .ok (none, false)
    ∧ cache_indicator_data serialize st indicator data fetched_fields now = st := by
  refine ⟨rfl, ?_, ?_⟩
  · unfold get_cached_data
    rw [if_pos h]
  · unfold cache_indicator_data
    rw [if_pos h]

/-- A database state with caching disabled, used to instantiate the C10
theorem. -/
def stDisabled : DBState :=
  { enabled := false, connected := false, indicators := [] }

theorem disabled_db_read_misses_write_noop_witness :
    get_cached_data (fun s => some s) stDisabled "AAPL" ["name"] 0
        = .ok (none, false)
    ∧ cache_indicator_data (fun s => s) stDisabled "AAPL" "d" ["name"] 0
        = stDisabled :=
  ⟨(disabled_db_read_misses_write_noop (fun s => some s) (fun s => s)
      stDisabled "AAPL" ["name"] ["name"] 0 "d" (Or.inl rfl)).2.1,
   (disabled_db_read_misses_write_noop (fun s => some s) (fun s => s)
      stDisabled "AAPL" ["name"] ["name"] 0 "d" (Or.inl rfl)).2.2⟩

/-- C4: a cache write with an open, enabled database updates the serialized
snapshot and the last-fetched timestamp, advances exactly the tier timestamps
whose tier contains a fetched field (others keep their previous value), and
leaves every other indicator's row unchanged. -/
theorem cache_write_advances_exactly_fetched_tiers {α : Type}
    (serialize : α → String) (st : DBState) (indicator : String) (data : α)
    (fetched_fields : List String) (now : ℚ)
    (he : st.enabled = true) (hc : st.connected = true) :
    dictLookup (cache_indicator_data serialize st indicator data
        fetched_fields now).indicators indicator
      = some (cache_write_spec_row serialize (dictLookup st.indicators indicator)
          data fetched_fields now)
    ∧ ∀ k, k ≠ indicator →
        dictLookup (cache_indicator_data serialize st indicator data
            fetched_fields now).indicators k
          = dictLookup st.indicators k := by
  have hcond : ¬ (st.enabled = false ∨ st.connected = false) := by
    simp [he, hc]
  unfold cache_indicator_data
  rw [if_neg hcond]
  cases hprev : dictLookup st.indicators indicator with
  | some row =>
      refine ⟨?_, ?_⟩
      · simp [dictLookup_dictInsert, cache_write_spec_row, hprev]
      · intro k hk
        rw [dictLookup_dictInsert,
          if_neg (fun h => hk h.symm)]
  | none =>
      refine ⟨?_, ?_⟩
      · simp [dictLookup_dictInsert, cache_write_spec_row, hprev]
      · intro k hk
        rw [dictLookup_dictInsert,
          if_neg (fun h => hk h.symm)]

/-- A database state with one cached row, used to instantiate the C4
theorem. -/
def stOneRow : DBState :=
  { enabled := true, connected := true,
    indicators := [("X", ⟨"old", some 1, some 1, none, some 1, 1⟩)] }

theorem cache_write_advances_exactly_fetched_tiers_witness :
    dictLookup (cache_indicator_data (fun s => s) stOneRow "X" "new"
        ["name"] 5).indicators "X"
      = some ⟨"new", some 1, some 5, none, some 1, 5⟩
    ∧ dictLookup (cache_indicator_data (fun s => s) stOneRow "X" "new"
        ["name"] 5).indicators "Y"
      = dictLookup stOneRow.indicators "Y" :=
  ⟨((cache_write_advances_exactly_fetched_tiers (fun s => s) stOneRow "X"
      "new" ["name"] 5 rfl rfl).1).trans (by decide),
   (cache_write_advances_exactly_fetched_tiers (fun s => s) stOneRow "X"
      "new" ["name"] 5 rfl rfl).2 "Y" (by decide)⟩

/-- C5 (amended): a deserialization failure on the stored snapshot propagates
out of the cache lookup as an error — it is not converted to a cache miss.
Only a disabled database, a missing connection, or an absent row yields
(none, false). -/
theorem get_cached_data_parse_error_propagates {α : Type}
    (parse : String → Option α) (st : DBState) (indicator : String)
    (attrs : List String) (now : ℚ) (row : IndicatorRow)
    (he : st.enabled = true) (hc : st.connected = true)
    (hrow : dictLookup st.indicators indicator = some row)
    (hparse : parse row.data_json = none) :
    get_cached_data parse st indicator attrs now = .error "JSONDecodeError" := by
  unfold get_cached_data
  rw [if_neg (by simp [he, hc])]
  simp [hrow, hparse]

/-- A JSON decoder that fails on the malformed snapshot stored in stBad. -/
def parseBad : String → Option String :=
  fun s => if s = "not json" then none else some s

/-- A database state whose stored snapshot for X is malformed. -/
def stBad : DBState :=
  { enabled := true, connected := true,
    indicators := [("X", ⟨"not json", some 1, some 1, some 1, some 1, 1⟩)] }

/-- C5 counterexample: with a malformed stored snapshot the lookup does not
return as if no entry existed — the decoding error escapes instead of
degrading to a cache miss. -/
theorem get_cached_data_malformed_json_is_not_a_miss :
    parseBad "not json" = none
    ∧ get_cached_data parseBad stBad "X" ["name"] 1
        ≠ Except.ok (none, false) :=
  ⟨rfl, fun h => Except.noConfusion h⟩

theorem get_cached_data_parse_error_propagates_witness :
    get_cached_data parseBad stBad "X" ["name"] 1
      = Except.error "JSONDecodeError" :=
  get_cached_data_parse_error_propagates parseBad stBad "X" ["name"] 1
    ⟨"not json", some 1, some 1, some 1, some 1, 1⟩ rfl rfl rfl rfl

/-! ## Classification (src/src/pysft/core/utilities.py) -/

/-- Fetch-source variants, following `E_FetchType` in src/src/pysft/enums.py
(the names `classify_fetch_types` and `create_task_list` reference). -/
inductive E_FetchType
  | NULL
  | YFINANCE
  | TASE_FAST
  | TASE_HISTORICAL
deriving DecidableEq, Repr

/-- Python `str.isdigit()`: true iff the string is nonempty and every
character is a digit (stated over the string's character list). -/
def pyIsDigit (s : String) : Bool :=
  decide (s.data ≠ []) && s.data.all Char.isDigit

/-- Python `s.startswith(p)` (stated over the strings' character lists). -/
def startswith (s p : String) : Bool :=
  decide (s.data.take p.data.length = p.data)

/-- The per-indicator format test inside `has_tase_indicators`
(utilities.py:49-50): purely numeric, or starting with "126.". -/
def is_tase_indicator_fmt (indicator : String) : Bool :=
  pyIsDigit indicator || startswith indicator "126."

/-- Embedding of `has_tase_indicators` (utilities.py:38-51). -/
def has_tase_indicators (indicators : List String) : Bool × List Bool :=
  let is_tase_indicators := indicators.map is_tase_indicator_fmt
  (is_tase_indicators.any (fun b => b), is_tase_indicators)

/-- One entry of the static remap table
(data/indicator_international_symbols.json): an equivalent general-provider
symbol and a display name. -/
structure VaultEntry where
  symbol : String
  name : String
deriving DecidableEq, Repr

/-- Embedding of `indicatorRequest` (structures.py:72-98), restricted to the
fields the verified components read and write; `name` stands for the
`data.name` field the classifier sets from the remap table. -/
structure IndicatorRequest where
  indicator : String
  original_indicator : String
  name : String := ""
  success : Bool := false
  message : String := ""
deriving DecidableEq, Repr

/-- One value of the `manager.requests` dict: the classified fetch type
paired with the indicator request. -/
structure ClassifiedEntry where
  fetch_type : E_FetchType
  request : IndicatorRequest
deriving DecidableEq, Repr

/-- The body of the classification loop of `classify_fetch_types`
(utilities.py:83-113) for one indicator: a TASE-format indicator found in the
international vault is remapped to its YFinance symbol; a TASE-format
indicator outside the vault goes to TASE_HISTORICAL or TASE_FAST depending on
the is_historical flag; everything else goes to YFINANCE. -/
def classify_one_indicator (indicator : String)
    (international_vault : List (String × VaultEntry)) (is_historical : Bool) :
    ClassifiedEntry :=
  if is_tase_indicator_fmt indicator then
    match dictLookup international_vault indicator with
    | some entry =>
        { fetch_type := .YFINANCE
          request := { indicator := entry.symbol
                       original_indicator := indicator
                       name := entry.name } }
    | none =>
        { fetch_type := if is_historical then .TASE_HISTORICAL else .TASE_FAST
          request := { indicator := indicator, original_indicator := indicator } }
  else
    { fetch_type := .YFINANCE
      request := { indicator := indicator, original_indicator := indicator } }

/-- Embedding of `classify_fetch_types` (utilities.py:53-115): the
is_historical flag is computed once from the whole indicator list and the
request's data length, then every indicator is classified into the
insertion-ordered `requests` dict. -/
def classify_fetch_types (indicators : List String)
    (international_vault : List (String × VaultEntry)) (data_length : Nat) :
    List (String × ClassifiedEntry) :=
  let has_tase := (has_tase_indicators indicators).1
  let is_historical := has_tase && decide (1 < data_length)
  indicators.foldl
    (fun requests indicator =>
      dictInsert requests indicator
        (classify_one_indicator indicator international_vault is_historical)) []

theorem dictLookup_foldl_insert {α : Type} (f : String → α) (l : List String)
    (m0 : List (String × α)) (k : String) :
    dictLookup (l.foldl (fun m i => dictInsert m i (f i)) m0) k
      = if k ∈ l then some (f k) else dictLookup m0 k := by
  induction l generalizing m0 with
  | nil => simp
  | cons i rest ih =>
      rw [List.foldl_cons, ih]
      by_cases hk : k ∈ rest
      · simp [hk]
      · by_cases hik : k = i
        · subst hik
          simp [hk, dictLookup_dictInsert]
        · simp only [List.mem_cons]
          rw [if_neg (by simp [hik, hk]), if_neg (by simp [hik, hk]),
            dictLookup_dictInsert, if_neg (fun h => hik h.symm)]

/-- C8: classification is a pure pointwise function of the identifier, the
static remap table, and the requested data length: the classified entry that
`classify_fetch_types` records for an identifier is exactly
`classify_one_indicator` of that identifier alone, independently of the other
identifiers, of their order, and of any execution order.  Classifying the
same normalized request twice therefore yields identical source-variant
assignments and resolved symbols. -/
theorem classification_is_pointwise_pure (indicators : List String)
    (international_vault : List (String × VaultEntry)) (data_length : Nat)
    (ind : String) :
    dictLookup (classify_fetch_types indicators international_vault data_length)
        ind
      = if ind ∈ indicators
        then some (classify_one_indicator ind international_vault
            (decide (1 < data_length)))
        else none := by
  unfold classify_fetch_types
  rw [dictLookup_foldl_insert
    (fun i => classify_one_indicator i international_vault
      ((has_tase_indicators indicators).1 && decide (1 < data_length)))]
  by_cases hmem : ind ∈ indicators
  · rw [if_pos hmem, if_pos hmem]
    by_cases ht : is_tase_indicator_fmt ind
    · have hht : (has_tase_indicators indicators).1 = true := by
        simp only [has_tase_indicators]
        exact List.any_eq_true.mpr ⟨_, List.mem_map_of_mem _ hmem, ht⟩
      rw [hht, Bool.true_and]
    · simp [classify_one_indicator, ht]
  · rw [if_neg hmem, if_neg hmem]
    rfl

/-! ## Task building (create_task_list, utilities.py:117-156) -/

/-- constants.YF_BATCH_SIZE. -/
def YF_BATCH_SIZE : Nat := 30

/-- The batch container handed to the YFinance fetcher
(`_YF_fetchReq_Container`, models.py:36-50), restricted to its request
list. -/
structure YFContainer where
  requests : List IndicatorRequest
deriving DecidableEq, Repr

/-- The payload of a `fetchTask`: a YFinance batch container or a single
indicator request. -/
inductive TaskData
  | yf (container : YFContainer)
  | single (request : IndicatorRequest)
deriving DecidableEq, Repr

/-- Embedding of `fetchTask` (fetch_task.py), restricted to the fields the
task builder sets. -/
structure FetchTask where
  fetch_type : E_FetchType
  data : TaskData
deriving DecidableEq, Repr

/-- One iteration of the `create_task_list` loop (utilities.py:136-151): a
YFinance request joins the current batch while it holds fewer than
YF_BATCH_SIZE requests; once the batch is full, a task is emitted from the
full batch and the batch is reset to empty (note the triggering request is
not carried over); TASE requests each get their own task. -/
def create_task_list_step (acc : List FetchTask × List IndicatorRequest)
    (entry : String × ClassifiedEntry) :
    List FetchTask × List IndicatorRequest :=
  let fetchType := entry.2.fetch_type
  if fetchType = .YFINANCE ∧ acc.2.length < YF_BATCH_SIZE then
    (acc.1, acc.2 ++ [entry.2.request])
  else if fetchType = .YFINANCE then
    (acc.1 ++ [⟨.YFINANCE, .yf ⟨acc.2⟩⟩], [])
  else if fetchType = .TASE_FAST then
    (acc.1 ++ [⟨.TASE_FAST, .single entry.2.request⟩], acc.2)
  else if fetchType = .TASE_HISTORICAL then
    (acc.1 ++ [⟨.TASE_HISTORICAL, .single entry.2.request⟩], acc.2)
  else acc

/-- Embedding of `create_task_list` (utilities.py:117-156): fold the loop
body over the classified requests in dict insertion order, then emit a final
task from any nonempty leftover batch. -/
def create_task_list (requests : List (String × ClassifiedEntry)) :
    List FetchTask :=
  let folded := requests.foldl create_task_list_step ([], [])
  if folded.2 ≠ [] then folded.1 ++ [⟨.YFINANCE, .yf ⟨folded.2⟩⟩]
  else folded.1

/-- The number of indicator requests carried by a task. -/
def task_size (t : FetchTask) : Nat :=
  match t.data with
  | .yf c => c.requests.length
  | .single _ => 1

/-- The indicator requests carried by a task. -/
def task_requests (t : FetchTask) : List IndicatorRequest :=
  match t.data with
  | .yf c => c.requests
  | .single r => [r]

/-- Thirty-five distinct non-TASE identifiers (single printable characters),
all of which classify to the batchable YFinance source. -/
def instruments35 : List String :=
  (List.range 35).map (fun i => String.mk [Char.ofNat (65 + i)])

set_option maxRecDepth 4000 in
/-- C2 (the code evaluated at the failing input): 35 instruments classified
to the batchable YFinance source with batch size 30 produce two tasks of
sizes 30 and 4 — not 30 and 5 — and only 34 of the 35 classified instruments
appear in any task: the request that arrives while the batch is full is
dropped when the batch is flushed. -/
theorem create_task_list_35_drops_one_instrument :
    instruments35.length = 35
    ∧ ((create_task_list (classify_fetch_types instruments35 [] 1)).map
        task_size) = [30, 4]
    ∧ (((create_task_list (classify_fetch_types instruments35 [] 1)).map
        task_requests).flatten).length = 34 := by decide

/-! ## Aggregation (fetcher_manager.aggregate_task_results,
fetcher_manager.py:85-128) -/

/-- What `task.get_results()` yields for one completed task
(fetch_task.py:98-111): the list of requests of a batch container, or the
single request itself.  Every request is returned, successful or not. -/
inductive TaskResults
  | batch (requests : List IndicatorRequest)
  | single (request : IndicatorRequest)
deriving DecidableEq, Repr

/-- Embedding of the dict write `results[res.original_indicator] = res`
(fetcher_manager.py:101-103). -/
def insert_task_result (m : List (String × IndicatorRequest))
    (r : IndicatorRequest) : List (String × IndicatorRequest) :=
  dictInsert m r.original_indicator r

/-- The `results` dict built by `aggregate_task_results`
(fetcher_manager.py:90-103): cached results first, then every request of
every task result, keyed by original indicator (later inserts overwrite). -/
def build_results (cached_results : List (String × IndicatorRequest))
    (task_results : List TaskResults) : List (String × IndicatorRequest) :=
  let m := cached_results.foldl (fun m kv => dictInsert m kv.1 kv.2) []
  task_results.foldl
    (fun m tr =>
      match tr with
      | .batch rs => rs.foldl insert_task_result m
      | .single r => insert_task_result m r) m

/-- The request object as the cache-filter and aggregation steps see it
(`self.parsedInput`): the mutable `indicators` list, the requested
`attributes`, and the `_original_indicators` attribute.  That attribute is
only ever read, through `getattr(..., '_original_indicators',
parsedInput.indicators)` at fetcher_manager.py:107 — no statement anywhere in
the source assigns it — so it is modelled as an Option whose runtime value is
always `none`. -/
structure ParsedInput where
  indicators : List String
  attributes : List String
  original_indicators : Option (List String) := none
deriving DecidableEq, Repr

/-- The loop of `fetcher_manager._check_cache` (fetcher_manager.py:143-160):
an indicator whose cached data exists and is fresh becomes a successful
request recorded in the cached-results dict; every other indicator is
appended to the fetch list.  An error raised by the cache lookup propagates
(the loop has no handler). -/
def check_cache_go {α : Type} (parse : String → Option α) (db : DBState)
    (attributes : List String) (now : ℚ)
    (cached_results : List (String × IndicatorRequest))
    (indicators_to_fetch : List String) :
    List String →
      Except String (List (String × IndicatorRequest) × List String)
  | [] => .ok (cached_results, indicators_to_fetch)
  | indicator :: rest =>
      match get_cached_data parse db indicator attributes now with
      | .error e => .error e
      | .ok (cached_data, is_fresh) =>
          if cached_data.isSome && is_fresh then
            check_cache_go parse db attributes now
              (dictInsert cached_results indicator
                { indicator := indicator, original_indicator := indicator
                  success := true })
              indicators_to_fetch rest
          else
            check_cache_go parse db attributes now cached_results
              (indicators_to_fetch ++ [indicator]) rest

/-- Embedding of `fetcher_manager._check_cache` (fetcher_manager.py:131-176):
with caching disabled it returns immediately and touches nothing; otherwise
it collects the fresh cache hits and reassigns `parsedInput.indicators` to
the list of indicators still to fetch (the empty list when everything was
cached).  Nothing here ever sets `_original_indicators`. -/
def check_cache {α : Type} (parse : String → Option α) (db : DBState)
    (parsedInput : ParsedInput) (now : ℚ) :
    Except String (List (String × IndicatorRequest) × ParsedInput) :=
  if db.enabled = false then .ok ([], parsedInput)
  else
    match check_cache_go parse db parsedInput.attributes now [] []
        parsedInput.indicators with
    | .error e => .error e
    | .ok (cached_results, indicators_to_fetch) =>
        .ok (cached_results,
          { parsedInput with indicators := indicators_to_fetch })

/-- Embedding of the ordering step of `aggregate_task_results`
(fetcher_manager.py:105-111): the replay list is
`getattr(self.parsedInput, '_original_indicators',
self.parsedInput.indicators)`; because `_original_indicators` is never
assigned, the getattr default makes this the current (post-cache-filter)
`parsedInput.indicators`.  The output list determines the final table's
column order. -/
def aggregate_task_results (cached_results : List (String × IndicatorRequest))
    (task_results : List TaskResults) (parsedInput : ParsedInput) :
    List IndicatorRequest :=
  let original_indicators :=
    parsedInput.original_indicators.getD parsedInput.indicators
  original_indicators.filterMap
    (fun indicator =>
      dictLookup (build_results cached_results task_results) indicator)

/-- Cache-hit request for A in the C1 scenario, exactly as `_check_cache`
builds it. -/
def reqA : IndicatorRequest :=
  { indicator := "A", original_indicator := "A", success := true }

/-- Freshly fetched request for B in the C1 scenario. -/
def reqB : IndicatorRequest :=
  { indicator := "B", original_indicator := "B", success := true }

/-- Cache-hit request for C in the C1 scenario, exactly as `_check_cache`
builds it. -/
def reqC : IndicatorRequest :=
  { indicator := "C", original_indicator := "C", success := true }

/-- An enabled, connected database holding fresh rows for A and C (long-term
tier stamped at time 0; B is absent). -/
def dbAC : DBState :=
  { enabled := true, connected := true,
    indicators := [("A", ⟨"dataA", none, some 0, none, none, 0⟩),
                   ("C", ⟨"dataC", none, some 0, none, none, 0⟩)] }

/-- The caller's request before cache filtering: instrument order A, B, C
and one long-term-tier attribute; `_original_indicators` absent, as it is at
runtime. -/
def parsedABC : ParsedInput :=
  { indicators := ["A", "B", "C"], attributes := ["name"] }

/-- C1 (the code evaluated at the failing input): with caching enabled,
cache hits A and C and fresh fetch result B for original request order
A, B, C, the cache filter reassigns `parsedInput.indicators` to the uncached
list containing only B, and — since `_original_indicators` is never assigned
anywhere — the aggregation's getattr falls back to that post-cache-filter
list, so the final table contains only B: the cache hits are dropped instead
of being merged in the claimed order A, B, C. -/
theorem aggregate_drops_cache_hits_from_final_table :
    check_cache (fun s => some s) dbAC parsedABC 100
      = .ok ([("A", reqA), ("C", reqC)],
          { indicators := ["B"], attributes := ["name"] })
    ∧ (aggregate_task_results [("A", reqA), ("C", reqC)]
        [TaskResults.single reqB]
        { indicators := ["B"], attributes := ["name"] }).map
          (fun r => r.original_indicator) = ["B"] := by
  have hfresh : check_freshness ["name"] none (some 0) none none 100 = true := by
    simp [check_freshness, IMMUTABLE_FIELDS, LONGTERM_TTL_FIELDS,
      LONGTERM_TTL_DAYS]
    norm_num
  have hA : get_cached_data (fun s : String => some s) dbAC "A" ["name"] 100
      = .ok (some "dataA", true) := by
    simp [get_cached_data, dbAC, dictLookup, hfresh]
  have hB : get_cached_data (fun s : String => some s) dbAC "B" ["name"] 100
      = .ok (none, false) := by
    simp [get_cached_data, dbAC, dictLookup]
  have hC : get_cached_data (fun s : String => some s) dbAC "C" ["name"] 100
      = .ok (some "dataC", true) := by
    simp [get_cached_data, dbAC, dictLookup, hfresh]
  refine ⟨?_, by decide⟩
  simp only [dbAC] at hA hB hC
  simp [check_cache, parsedABC, dbAC, check_cache_go, hA, hB, hC, dictInsert,
    reqA, reqC]

/-- C6 (amended): no single instrument's failure removes anything from the
aggregation — every request present in the results dict whose indicator is in
the replayed indicator list appears in the final table, even when its success
flag is false.  A failed instrument returned by its task is therefore NOT
omitted (its indicator stays in `parsedInput.indicators`, which is the replay
list): it appears with its default data, and its failure detail (success flag
and message) travels on the request object itself, not in a separate failure
list. -/
theorem aggregate_keeps_failed_requests
    (cached_results : List (String × IndicatorRequest))
    (task_results : List TaskResults) (parsedInput : ParsedInput)
    (k : String) (r : IndicatorRequest)
    (h1 : dictLookup (build_results cached_results task_results) k = some r)
    (h2 : k ∈ parsedInput.original_indicators.getD parsedInput.indicators)
    (h3 : r.success = false) :
    r ∈ aggregate_task_results cached_results task_results parsedInput := by
  unfold aggregate_task_results
  exact List.mem_filterMap.mpr ⟨k, h2, h1⟩

/-- A request whose fetch failed (success stays false, failure message set),
as every fetcher leaves it on an unsuccessful path. -/
def failedReq : IndicatorRequest :=
  { indicator := "X", original_indicator := "X", success := false
    message := "X - Failed to fetch data" }

theorem aggregate_keeps_failed_requests_witness :
    failedReq ∈ aggregate_task_results [] [TaskResults.single failedReq]
      { indicators := ["X"], attributes := ["price"] } :=
  aggregate_keeps_failed_requests [] [TaskResults.single failedReq]
    { indicators := ["X"], attributes := ["price"] } "X" failedReq
    (by decide) (by decide) rfl

/-- C6 counterexample: an instrument whose fetch failed and that was not
served from the cache is not omitted from the aggregated output — with an
empty cache and a single task returning only the failed request, the final
table still contains that instrument. -/
theorem aggregate_failed_uncached_not_omitted :
    failedReq.success = false
    ∧ (aggregate_task_results [] [TaskResults.single failedReq]
        { indicators := ["X"], attributes := ["price"] }).map
          (fun r => r.original_indicator) = ["X"] := by decide

/-! ## Retry behaviour (fetchers/TASE_fast.py:55-81 and
fetchers/fetch_yfinance.py:51-139) -/

/-- constants.MAX_ATTEMPTS. -/
def MAX_ATTEMPTS : Nat := 3

/-- constants.MAX_YF_ATTEMPTS. -/
def MAX_YF_ATTEMPTS : Nat := 6

/-- Trace of one `_fetch_from_url` run: the returned body if any, the number
of fetch attempts performed, and the sleeps (in seconds) taken between
consecutive attempts. -/
structure FetchTrace where
  result : Option String
  attempts : Nat
  delays : List ℚ
deriving DecidableEq, Repr

/-- The attempt loop of `_fetch_from_url` (TASE_fast.py:70-79): the network
call is the black-box `fetch` collaborator, indexed by attempt number; on
failure the loop sleeps one second (only when another attempt remains) and
retries.  `fuel` counts the attempts left in `range(MAX_ATTEMPTS)`. -/
def fetch_from_url_go (fetch : Nat → Option String) :
    Nat → Nat → FetchTrace
  | _, 0 => ⟨none, 0, []⟩
  | attempt, fuel + 1 =>
      match fetch attempt with
      | some text => ⟨some text, 1, []⟩
      | none =>
          let rest := fetch_from_url_go fetch (attempt + 1) fuel
          ⟨rest.result, rest.attempts + 1,
            if attempt < MAX_ATTEMPTS - 1 then 1 :: rest.delays
            else rest.delays⟩

/-- Embedding of `_fetch_from_url` (TASE_fast.py:55-81). -/
def fetch_from_url (fetch : Nat → Option String) : FetchTrace :=
  fetch_from_url_go fetch 0 MAX_ATTEMPTS

/-- The attempt loop of `fetch_yfinance` (fetch_yfinance.py:51-139): one
download attempt per iteration of `range(MAX_YF_ATTEMPTS)`, breaking early
when no requests remain unresolved; `resolve` is the black-box collaborator
mapping an attempt's remaining tickers to those still unresolved afterwards.
Returns the number of download attempts performed (there is no sleep between
attempts). -/
def fetch_yfinance_attempt_loop (resolve : Nat → List String → List String) :
    Nat → Nat → List String → Nat
  | _, 0, _ => 0
  | attempt, fuel + 1, remaining =>
      if remaining = [] then 0
      else 1 + fetch_yfinance_attempt_loop resolve (attempt + 1) fuel
              (resolve attempt remaining)

/-- Number of YFinance download attempts for an initial ticker list. -/
def fetch_yfinance_attempts (resolve : Nat → List String → List String)
    (tickers : List String) : Nat :=
  fetch_yfinance_attempt_loop resolve 0 MAX_YF_ATTEMPTS tickers

/-- The retry delay schedule asserted by the claim, written from the spec's
words for comparison with the code: the delay before retry number i is
backoff_base * 2^i plus a uniform random jitter of up to 25% of that
delay. -/
def spec_backoff_delays (delays : List ℚ) : Prop :=
  ∃ backoff_base : ℚ, 0 < backoff_base ∧
    ∀ i : Fin delays.length,
      ∃ jitter : ℚ, 0 ≤ jitter
        ∧ jitter ≤ backoff_base * 2 ^ (i : ℕ) / 4
        ∧ delays.get i = backoff_base * 2 ^ (i : ℕ) + jitter

/-- A fetch collaborator that fails on every attempt. -/
def alwaysFailFetch : Nat → Option String := fun _ => none

/-- C7 counterexample: for an always-failing fetch the delays between
consecutive attempts are a constant one second, which no choice of
backoff_base and jitter in the claimed schedule backoff_base * 2^attempt plus
up-to-25% jitter can produce. -/
theorem retry_delays_not_exponential_backoff :
    (fetch_from_url alwaysFailFetch).delays = [1, 1]
    ∧ ¬ spec_backoff_delays (fetch_from_url alwaysFailFetch).delays := by
  have hd : (fetch_from_url alwaysFailFetch).delays = [1, 1] := by decide
  refine ⟨hd, ?_⟩
  rw [hd]
  rintro ⟨b, hb, hall⟩
  obtain ⟨j0, hj0, hj0b, he0⟩ := hall ⟨0, by norm_num⟩
  obtain ⟨j1, hj1, _, he1⟩ := hall ⟨1, by norm_num⟩
  have he0n : (1 : ℚ) = b + j0 := by
    simpa using he0
  have he1n : (1 : ℚ) = b * 2 + j1 := by
    simpa using he1
  have hj0n : j0 ≤ b / 4 := by
    simpa using hj0b
  linarith

/-- C7 (amended): a fetch that always fails is attempted exactly
MAX_ATTEMPTS = 3 times by the TASE fast fetcher, with a constant one-second
delay between consecutive attempts — non-decreasing, but constant rather than
exponential with jitter — and a YFinance fetch whose download never resolves
any ticker performs exactly MAX_YF_ATTEMPTS = 6 attempts with no sleep
between them. -/
theorem always_failing_fetch_attempt_counts
    (fetch : Nat → Option String) (hf : ∀ n, fetch n = none)
    (resolve : Nat → List String → List String) (tickers : List String)
    (ht : tickers ≠ []) (hr : ∀ a r, r ≠ [] → resolve a r ≠ []) :
    (fetch_from_url fetch).attempts = 3
    ∧ (fetch_from_url fetch).delays = [1, 1]
    ∧ (fetch_from_url fetch).delays.Chain' (fun d1 d2 => d1 ≤ d2)
    ∧ fetch_yfinance_attempts resolve tickers = 6 := by
  have htrace : fetch_from_url fetch = ⟨none, 3, [1, 1]⟩ := by
    simp [fetch_from_url, MAX_ATTEMPTS, fetch_from_url_go, hf]
  have h1 := hr 0 tickers ht
  have h2 := hr 1 _ h1
  have h3 := hr 2 _ h2
  have h4 := hr 3 _ h3
  have h5 := hr 4 _ h4
  have hyf : fetch_yfinance_attempts resolve tickers = 6 := by
    simp [fetch_yfinance_attempts, MAX_YF_ATTEMPTS, fetch_yfinance_attempt_loop,
      ht, h1, h2, h3, h4, h5]
  refine ⟨by rw [htrace], by rw [htrace], ?_, hyf⟩
  rw [htrace]
  exact List.chain'_pair.mpr le_rfl

theorem always_failing_fetch_attempt_counts_witness :
    (fetch_from_url alwaysFailFetch).attempts = 3
    ∧ fetch_yfinance_attempts (fun _ remaining => remaining) ["AAPL"] = 6 :=
  ⟨(always_failing_fetch_attempt_counts alwaysFailFetch (fun _ => rfl)
      (fun _ remaining => remaining) ["AAPL"] (by decide)
      (fun _ _ h => h)).1,
   (always_failing_fetch_attempt_counts alwaysFailFetch (fun _ => rfl)
      (fun _ remaining => remaining) ["AAPL"] (by decide)
      (fun _ _ h => h)).2.2.2⟩

/-! ## Scheduler admission control

Modelled from the spec: the executable scheduler is missing from the source —
src/src/pysft/core/task_scheduler.py contains only a fully commented-out
draft, and `fetcher_manager.managerRoutine` imports a `taskScheduler` name
that does not exist — so the admission-control discipline of spec section 4.4
(per-source-variant concurrency slots and a global declared-memory budget,
acquired before a task starts and released when it finishes) is modelled here
as a transition system over the multiset of in-flight tasks. -/

/-- A scheduled task as the admission controller sees it: its source variant
and its declared memory estimate in bytes. -/
structure SchedTask where
  variant : E_FetchType
  memory_estimate : Nat
deriving DecidableEq, Repr

/-- Modelled from the spec: the scheduler's configuration surface — a
concurrency limit per source variant and a global memory budget. -/
structure SchedConfig where
  concurrency_limit : E_FetchType → Nat
  memory_budget : Nat

/-- Sum of the declared memory estimates of the in-flight tasks. -/
def mem_in_flight (running : List SchedTask) : Nat :=
  (running.map (fun t => t.memory_estimate)).sum

/-- Number of in-flight tasks of one source variant. -/
def running_of_variant (v : E_FetchType) (running : List SchedTask) : Nat :=
  (running.filter (fun t => t.variant = v)).length

/-- Modelled from the spec: a worker may start a task only after acquiring a
free concurrency slot of the task's variant and enough memory-budget tokens;
finishing a task releases both.  The state is the list of in-flight tasks. -/
inductive SchedStep (cfg : SchedConfig) : List SchedTask → List SchedTask → Prop
  | start (t : SchedTask) (running : List SchedTask)
      (hslot : running_of_variant t.variant running
        < cfg.concurrency_limit t.variant)
      (hmem : mem_in_flight running + t.memory_estimate ≤ cfg.memory_budget) :
      SchedStep cfg running (t :: running)
  | finish (t : SchedTask) (pre post : List SchedTask) :
      SchedStep cfg (pre ++ t :: post) (pre ++ post)

/-- States reachable from the idle scheduler (no task in flight). -/
inductive SchedReachable (cfg : SchedConfig) : List SchedTask → Prop
  | init : SchedReachable cfg []
  | step {s s2 : List SchedTask} :
      SchedReachable cfg s → SchedStep cfg s s2 → SchedReachable cfg s2

/-- C9: in every reachable scheduler state, the number of concurrently
executing tasks of each source variant is at most that variant's configured
limit, and the sum of the declared memory estimates of the in-flight tasks is
at most the configured global memory budget. -/
theorem scheduler_respects_limits_and_budget (cfg : SchedConfig)
    (running : List SchedTask) (h : SchedReachable cfg running) :
    (∀ v, running_of_variant v running ≤ cfg.concurrency_limit v)
    ∧ mem_in_flight running ≤ cfg.memory_budget := by
  induction h with
  | init =>
      refine ⟨fun v => ?_, ?_⟩
      · simp [running_of_variant]
      · simp [mem_in_flight]
  | @step s s2 hreach hstep ih =>
      cases hstep with
      | start t hslot hmem =>
          refine ⟨fun v => ?_, ?_⟩
          · by_cases hv : t.variant = v
            · subst hv
              have : running_of_variant t.variant (t :: s)
                  = running_of_variant t.variant s + 1 := by
                simp [running_of_variant]
              omega
            · have : running_of_variant v (t :: s)
                  = running_of_variant v s := by
                simp [running_of_variant, hv]
              rw [this]
              exact ih.1 v
          · have : mem_in_flight (t :: s)
                = t.memory_estimate + mem_in_flight s := by
              simp [mem_in_flight]
            omega
      | finish t pre post =>
          have hvar : ∀ v, running_of_variant v (pre ++ post)
              ≤ running_of_variant v (pre ++ t :: post) := by
            intro v
            simp only [running_of_variant, List.filter_append,
              List.length_append, List.filter_cons]
            by_cases hv : t.variant = v
            · simp [hv]
            · simp [hv]
          have hm : mem_in_flight (pre ++ post)
              ≤ mem_in_flight (pre ++ t :: post) := by
            simp only [mem_in_flight, List.map_append, List.sum_append,
              List.map_cons, List.sum_cons]
            omega
          exact ⟨fun v => le_trans (hvar v) (ih.1 v),
            le_trans hm ih.2⟩

/-- A sample scheduler configuration: per-variant limit 2, budget 100. -/
def schedCfg : SchedConfig :=
  { concurrency_limit := fun _ => 2, memory_budget := 100 }

/-- A sample YFinance task with a declared estimate of 10 bytes. -/
def schedT : SchedTask := { variant := .YFINANCE, memory_estimate := 10 }

theorem scheduler_respects_limits_and_budget_witness :
    running_of_variant E_FetchType.YFINANCE [schedT]
        ≤ schedCfg.concurrency_limit E_FetchType.YFINANCE
    ∧ mem_in_flight [schedT] ≤ schedCfg.memory_budget :=
  ⟨(scheduler_respects_limits_and_budget schedCfg [schedT]
      (SchedReachable.step SchedReachable.init
        (SchedStep.start schedT [] (by decide) (by decide)))).1
      E_FetchType.YFINANCE,
   (scheduler_respects_limits_and_budget schedCfg [schedT]
      (SchedReachable.step SchedReachable.init
        (SchedStep.start schedT [] (by decide) (by decide)))).2⟩

end PySFT
